import Mathlib

set_option maxRecDepth 200000
set_option maxHeartbeats 1000000

/-!
Shallow embedding of the multi-tenant accounting core (periods, journals,
money arithmetic, hash chaining, posting and reversal services), translated
from the TypeScript source of the repository, together with theorems that
settle the frozen claims about it.

Conventions of the embedding:
* JS `Date` values are modelled as milliseconds since the Unix epoch (`Int`),
  which is exactly what `Date` comparisons and arithmetic observe.
* `Decimal` values (decimal.js, configured with `ROUND_HALF_EVEN`) are
  modelled as an explicit mantissa/scale pair `Dec` with value
  `num / 10 ^ scale`.  `add`/`sub`/`mul` are exact, as decimal.js is for the
  magnitudes this program handles (precision 28); `div` rounds half-to-even
  at 40 fractional digits where decimal.js rounds at 28 significant digits —
  the two agree after the final rescaling to 4 fractional digits for all
  quotients of the magnitudes used here.
* The SHA-256 function is injected as a parameter `H : String → String`,
  mirroring the spec, which treats the hash implementation as an injected
  capability; concrete theorems instantiate it with an injective stand-in.
* JS exceptions are modelled as `Res.thrown`; `Result` failures as
  `Res.fail` carrying the typed domain error.
-/

/-- Round-half-to-even integer division: the integer nearest to `a / b`
(for `b > 0`), ties resolved to the even neighbour.  This is the rounding
mode decimal.js is configured with (`Decimal.ROUND_HALF_EVEN`). -/
def roundDivHalfEven (a b : ℤ) : ℤ :=
  let f := Int.fdiv a b
  let r2 := 2 * (a - f * b)
  if r2 < b then f
  else if r2 > b then f + 1
  else if f % 2 = 0 then f else f + 1

def pow10 (n : Nat) : Int := (10 : Int) ^ n

/-- Arbitrary-precision decimal: value is `num / 10 ^ scale`.  Models the
decimal.js `Decimal` values this program constructs. -/
structure Dec where
  num : Int
  scale : Nat
  deriving DecidableEq, Repr

namespace Dec

/-- Exact decimal addition (decimal.js `add`). -/
def add (d e : Dec) : Dec :=
  let s := max d.scale e.scale
  ⟨d.num * pow10 (s - d.scale) + e.num * pow10 (s - e.scale), s⟩

/-- Exact decimal subtraction (decimal.js `sub`). -/
def sub (d e : Dec) : Dec :=
  let s := max d.scale e.scale
  ⟨d.num * pow10 (s - d.scale) - e.num * pow10 (s - e.scale), s⟩

/-- Exact decimal multiplication (decimal.js `mul`). -/
def mul (d e : Dec) : Dec := ⟨d.num * e.num, d.scale + e.scale⟩

def neg (d : Dec) : Dec := ⟨-d.num, d.scale⟩

def abs (d : Dec) : Dec := ⟨|d.num|, d.scale⟩

/-- Decimal division (decimal.js `div`): rounded half-to-even; see the
header comment for the rounding-position caveat.  Callers guard `e ≠ 0`. -/
def div (d e : Dec) : Dec :=
  let a := d.num * pow10 e.scale
  let b := e.num * pow10 d.scale
  if b > 0 then ⟨roundDivHalfEven (a * pow10 40) b, 40 + 0⟩
  else if b < 0 then ⟨roundDivHalfEven (-(a * pow10 40)) (-b), 40⟩
  else ⟨0, 0⟩

/-- Numeric-value equality (decimal.js `equals` compares values, not
representations). -/
def eqv (d e : Dec) : Bool :=
  d.num * pow10 e.scale == e.num * pow10 d.scale

/-- Three-way numeric comparison (decimal.js `comparedTo`). -/
def cmp (d e : Dec) : Int :=
  let a := d.num * pow10 e.scale
  let b := e.num * pow10 d.scale
  if a < b then -1 else if a > b then 1 else 0

def isZero (d : Dec) : Bool := d.num == 0

def isNeg (d : Dec) : Bool := d.num < 0

/-- The integer nearest to `value * 10 ^ k`, half-to-even; exact when the
value already has at most `k` fractional digits. -/
def roundToScale (d : Dec) (k : Nat) : Int :=
  if d.scale ≤ k then d.num * pow10 (k - d.scale)
  else roundDivHalfEven d.num (pow10 (d.scale - k))

/-- True when the value has at most `k` decimal places
(decimal.js `decimalPlaces()`, which counts after normalization). -/
def decimalPlacesLe (d : Dec) (k : Nat) : Bool :=
  (d.num * pow10 k) % pow10 d.scale == 0

end Dec

/-- Left-pad the decimal rendering of `n` with zeros to `width` digits. -/
def natPad (width : Nat) (n : Nat) : String :=
  let s := toString n
  if s.length < width then String.mk (List.replicate (width - s.length) '0') ++ s else s

/-- Render a scaled integer `m` as a decimal string with exactly
`fracDigits` fractional digits (the layout `Number.prototype.toFixed` and
decimal.js `toFixed` produce). -/
def scaledToString (fracDigits : Nat) (m : ℤ) : String :=
  let sign := if m < 0 then "-" else ""
  let a := m.natAbs
  let p := (pow10 fracDigits).toNat
  sign ++ toString (a / p) ++ "." ++ natPad fracDigits (a % p)

/-- decimal.js `toFixed(k)` under `ROUND_HALF_EVEN`. -/
def Dec.toFixed (d : Dec) (k : Nat) : String := scaledToString k (d.roundToScale k)

/-- Split a character list at every occurrence of `c`. -/
def splitOnChar (c : Char) : List Char → List (List Char)
  | [] => [[]]
  | x :: xs =>
    let r := splitOnChar c xs
    if x = c then [] :: r
    else
      match r with
      | h :: t => (x :: h) :: t
      | [] => [[x]]

/-- Numeric value of a nonempty all-digit character list. -/
def digitsVal (l : List Char) : Option Nat :=
  if l.all Char.isDigit then
    some (l.foldl (fun acc c => acc * 10 + (c.toNat - 48)) 0)
  else none

/-- Parse a plain decimal string `[-]digits[.digits]` into a `Dec`
(the accepting fragment of the decimal.js constructor that this program
feeds it). -/
def parseDec (s : String) : Option Dec :=
  let (sgn, body) :=
    match s.toList with
    | '-' :: rest => ((-1 : Int), rest)
    | l => ((1 : Int), l)
  match splitOnChar '.' body with
  | [i] =>
    if i.isEmpty then none
    else (digitsVal i).map (fun n => ⟨sgn * n, 0⟩)
  | [i, f] =>
    if i.isEmpty then none
    else
      match digitsVal i, digitsVal f with
      | some ni, some nf => some ⟨sgn * (ni * (pow10 f.length).toNat + nf), f.length⟩
      | _, _ => none
  | _ => none

/-- Insert `x` into `l` before the first element strictly greater than it;
together with `stableSort` this is a stable sort, matching the stability of
JS `Array.prototype.sort` and SQL `ORDER BY`. -/
def stableInsert (lt : α → α → Bool) (x : α) : List α → List α
  | [] => [x]
  | y :: ys => if lt y x then y :: stableInsert lt x ys else x :: y :: ys

/-- Stable insertion sort by the strict comparison `lt`. -/
def stableSort (lt : α → α → Bool) : List α → List α
  | [] => []
  | x :: xs => stableInsert lt x (stableSort lt xs)

/-- Trim the JS whitespace characters this program can meet from both ends
(JS `String.prototype.trim`). -/
def jsTrim (s : String) : String :=
  let ws : Char → Bool := fun c => c = ' ' || c = '\t' || c = '\n' || c = '\r'
  String.mk (((s.toList.dropWhile ws).reverse.dropWhile ws).reverse)

/-- Days from the civil epoch 1970-01-01 for a proleptic Gregorian date
(Howard Hinnant's `days_from_civil`, with floor division). -/
def daysFromCivil (y : Int) (m d : Nat) : Int :=
  let y := if m ≤ 2 then y - 1 else y
  let era := Int.fdiv y 400
  let yoe := (y - era * 400).toNat
  let mp := if m > 2 then m - 3 else m + 9
  let doy := (153 * mp + 2) / 5 + d - 1
  let doe := yoe * 365 + yoe / 4 - yoe / 100 + doy
  era * 146097 + (doe : Int) - 719468

/-- Milliseconds-since-epoch timestamp for midnight UTC of a civil date;
used to build concrete `Date` values. -/
def mkDate (y : Int) (m d : Nat) : Int := daysFromCivil y m d * 86400000

/-- Civil date from days since 1970-01-01 (Hinnant's `civil_from_days`). -/
def civilFromDays (z : Int) : Int × Nat × Nat :=
  let z := z + 719468
  let era : Int := Int.fdiv z 146097
  let doe : Nat := (z - era * 146097).toNat
  let yoe : Nat := (doe - doe / 1460 + doe / 36524 - doe / 146096) / 365
  let y : Int := (yoe : Int) + era * 400
  let doy : Nat := doe - (365 * yoe + yoe / 4 - yoe / 100)
  let mp : Nat := (5 * doy + 2) / 153
  let d : Nat := doy - (153 * mp + 2) / 5 + 1
  let m : Nat := if mp < 10 then mp + 3 else mp - 9
  (if m ≤ 2 then y + 1 else y, m, d)

/-- JS `Date.prototype.toISOString`: strict ISO-8601 UTC with millisecond
precision, e.g. `2024-05-15T00:00:00.000Z`. -/
def dateToISO (ms : Int) : String :=
  let days := Int.fdiv ms 86400000
  let tod := (ms - days * 86400000).toNat
  let (y, m, d) := civilFromDays days
  let yearStr := if y < 0 then "-" ++ natPad 6 y.natAbs else natPad 4 y.natAbs
  yearStr ++ "-" ++ natPad 2 m ++ "-" ++ natPad 2 d ++ "T" ++
    natPad 2 (tod / 3600000) ++ ":" ++ natPad 2 (tod / 60000 % 60) ++ ":" ++
    natPad 2 (tod / 1000 % 60) ++ "." ++ natPad 3 (tod % 1000) ++ "Z"

/-- ISO-4217 check used by `Money.create`: exactly three characters A-Z. -/
def isCurrencyCode (c : String) : Bool :=
  c.length == 3 && c.toList.all (fun ch => 'A' ≤ ch && ch ≤ 'Z')

/-- Money value object (`Money` in the source): a decimal.js value plus a
currency code.  The source stores, alongside the raw decimal, an `amount`
string that every constructor sets to `decimal.toFixed(4)`; that field is
modelled as the derived function `Money.amount` below. -/
structure Money where
  dec : Dec
  currency : String
  deriving DecidableEq, Repr

namespace Money

/-- The stored 4-fractional-digit representation (`this.amount`). -/
def amount (m : Money) : String := m.dec.toFixed 4

/-- `Money.create`: parse, reject more than 4 decimal places and non-ISO
currency codes (the source throws; modelled as `none`). -/
def create (amountValue : String) (currencyCode : String) : Option Money := do
  let d ← parseDec amountValue
  if d.decimalPlacesLe 4 && isCurrencyCode currencyCode then
    pure ⟨d, currencyCode⟩
  else none

/-- `Money.zero(currency)` — `Money.create(0, c)`. -/
def zero (currencyCode : String) : Money := ⟨⟨0, 0⟩, currencyCode⟩

def isZero (m : Money) : Bool := m.dec.isZero

def isNegative (m : Money) : Bool := m.dec.isNeg

/-- `add`: throws (`none`) on different currencies, else exact sum carried
at full precision with the stored string rescaled to 4 digits. -/
def add (a b : Money) : Option Money :=
  if a.currency != b.currency then none
  else some ⟨a.dec.add b.dec, a.currency⟩

/-- `subtract`: throws (`none`) on different currencies. -/
def subtract (a b : Money) : Option Money :=
  if a.currency != b.currency then none
  else some ⟨a.dec.sub b.dec, a.currency⟩

/-- `multiply` by a decimal factor (total; the source only throws when the
factor string cannot be parsed, which callers have already ruled out). -/
def multiply (a : Money) (factor : Dec) : Money := ⟨a.dec.mul factor, a.currency⟩

/-- `divide`: throws (`none`) on a zero divisor. -/
def divide (a : Money) (divisor : Dec) : Option Money :=
  if divisor.isZero then none else some ⟨a.dec.div divisor, a.currency⟩

def negate (a : Money) : Money := ⟨a.dec.neg, a.currency⟩

def abs (a : Money) : Money := ⟨a.dec.abs, a.currency⟩

/-- `equals`: same currency and equal *full-precision* decimals
(`this._decimal.equals(other._decimal)`). -/
def equals (a b : Money) : Bool := a.currency == b.currency && a.dec.eqv b.dec

/-- `compareTo`: throws (`none`) on different currencies, else the sign of
the *full-precision* decimal comparison. -/
def compareTo (a b : Money) : Option Int :=
  if a.currency != b.currency then none else some (a.dec.cmp b.dec)

def greaterThan (a b : Money) : Option Bool := (a.compareTo b).map (· > 0)

def lessThan (a b : Money) : Option Bool := (a.compareTo b).map (· < 0)

def hasSameCurrency (a b : Money) : Bool := a.currency == b.currency

/-- `toString`: the stored 4-digit amount string, a space, the currency. -/
def toStr (m : Money) : String := m.amount ++ " " ++ m.currency

end Money

/-- Structured `details` payloads of domain errors (the JS object literals
attached to `domainError(code, message, details)`). -/
inductive JVal where
  | s : String → JVal
  | n : Int → JVal
  | b : Bool → JVal
  | arr : List JVal → JVal
  | obj : List (String × JVal) → JVal

/-- Typed domain error (`DomainError` in the source). -/
structure DomainError where
  code : String
  message : String
  details : Option JVal := none

/-- Outcome of an operation: a success, a typed `Result` failure, or an
uncaught JS exception. -/
inductive Res (α : Type) where
  | ok : α → Res α
  | fail : DomainError → Res α
  | thrown : String → Res α

namespace DomainErrorCodes

def VALIDATION_FAILED : String := "VALIDATION_FAILED"

def BUSINESS_RULE_VIOLATION : String := "BUSINESS_RULE_VIOLATION"

def ENTITY_NOT_FOUND : String := "ENTITY_NOT_FOUND"

def PERIOD_CLOSED : String := "PERIOD_CLOSED"

def JOURNAL_ALREADY_POSTED : String := "JOURNAL_ALREADY_POSTED"

def UNBALANCED_JOURNAL : String := "UNBALANCED_JOURNAL"

def INVALID_HASH_CHAIN : String := "INVALID_HASH_CHAIN"

end DomainErrorCodes

/-- JS `x || dflt` on an optional string: `undefined` and the empty string
are both falsy. -/
def jsOrStr (x : Option String) (dflt : String) : String :=
  match x with
  | none => dflt
  | some s => if s = "" then dflt else s

/-- Per-line hash payload (`JournalLineHashData`). -/
structure JournalLineHashData where
  accountId : String
  lineNumber : Nat
  description : String
  debitAmount : String
  creditAmount : String
  originalCurrency : String
  originalDebitAmount : String
  originalCreditAmount : String
  exchangeRate : String
  taxCode : Option String
  taxAmount : Option String
  taxRate : Option String
  deriving DecidableEq, Repr

/-- Journal hash payload (`JournalHashData`). -/
structure JournalHashData where
  organizationId : String
  periodId : String
  journalNumber : String
  description : String
  reference : Option String
  postingDate : Int
  totalDebit : String
  totalCredit : String
  currency : String
  hashPrev : Option String
  lines : List JournalLineHashData
  deriving DecidableEq, Repr

namespace JournalHash

/-- `JournalHash.serialize`: the deterministic string that is hashed.
Header fields joined with `:`; lines sorted by `line_number` ascending,
joined with `;`, each line the `|`-join of its twelve fields. -/
def serialize (data : JournalHashData) : String :=
  let lineStrs :=
    (stableSort (fun a b => a.lineNumber < b.lineNumber) data.lines).map
      (fun l => String.intercalate "|"
        [l.accountId,
         toString l.lineNumber,
         l.description,
         l.debitAmount,
         l.creditAmount,
         l.originalCurrency,
         l.originalDebitAmount,
         l.originalCreditAmount,
         l.exchangeRate,
         jsOrStr l.taxCode "",
         jsOrStr l.taxAmount "0",
         jsOrStr l.taxRate "0"])
  String.intercalate ":"
    [data.organizationId,
     data.periodId,
     data.journalNumber,
     data.description,
     jsOrStr data.reference "",
     dateToISO data.postingDate,
     data.totalDebit,
     data.totalCredit,
     data.currency,
     jsOrStr data.hashPrev "",
     String.intercalate ";" lineStrs]

/-- `JournalHash.generate`: hash of the serialized payload.  `H` is the
injected SHA-256 implementation. -/
def generate (H : String → String) (data : JournalHashData) : String :=
  H (serialize data)

/-- `JournalHash.generateWithPrevious`: hash with the chain predecessor
spliced into the payload. -/
def generateWithPrevious (H : String → String) (data : JournalHashData)
    (previousHash : Option String) : String :=
  generate H { data with hashPrev := previousHash }

/-- `JournalHash.verify`: recompute and compare. -/
def verify (self : String) (H : String → String) (data : JournalHashData) : Bool :=
  self == generate H data

end JournalHash

/-- Accounting period entity (`Period`). -/
structure Period where
  id : String
  organizationId : String
  name : String
  startDate : Int
  endDate : Int
  status : String
  createdAt : Int
  updatedAt : Int
  deriving DecidableEq, Repr

namespace Period

/-- `Period.create`: name non-empty, start strictly before end, duration at
most two years; new periods start `open`. -/
def create (id organizationId name : String) (startDate endDate : Int)
    (now : Int) : Res Period :=
  if jsTrim name = "" then
    .fail ⟨DomainErrorCodes.VALIDATION_FAILED, "Period name is required", none⟩
  else if startDate ≥ endDate then
    .fail ⟨DomainErrorCodes.VALIDATION_FAILED, "Period start date must be before end date", none⟩
  else if endDate - startDate > 2 * 365 * 24 * 60 * 60 * 1000 then
    .fail ⟨DomainErrorCodes.VALIDATION_FAILED, "Period duration cannot exceed 2 years", none⟩
  else .ok ⟨id, organizationId, name, startDate, endDate, "open", now, now⟩

def containsDate (p : Period) (date : Int) : Bool :=
  p.startDate ≤ date && date ≤ p.endDate

def allowsPosting (p : Period) : Bool := p.status == "open"

/-- `Period.overlapsWith`: note the *strict* inequalities in the source. -/
def overlapsWith (p other : Period) : Bool :=
  p.startDate < other.endDate && other.startDate < p.endDate

end Period

/-- Journal line entity (`JournalLine`). -/
structure JournalLine where
  journalId : String
  accountId : String
  lineNumber : Nat
  description : String
  debitAmount : Money
  creditAmount : Money
  originalAmount : Money
  exchangeRate : String
  taxCode : Option String
  taxAmount : Option Money
  taxRate : Option String
  deriving DecidableEq, Repr

namespace JournalLine

/-- `JournalLine.create` validations (the source throws; modelled as
`none`): exactly one of debit/credit non-zero, positive line number, same
line currencies, numeric exchange rate greater than zero, tax rate in
`[0, 1]` when present. -/
def create (journalId accountId : String) (lineNumber : Nat)
    (description : String) (debitAmount creditAmount originalAmount : Money)
    (exchangeRate : String) (taxCode : Option String) (taxAmount : Option Money)
    (taxRate : Option String) : Option JournalLine := do
  if debitAmount.isZero && creditAmount.isZero then none
  else if !debitAmount.isZero && !creditAmount.isZero then none
  else if lineNumber = 0 then none
  else if !(debitAmount.hasSameCurrency creditAmount) then none
  else
    let rate ← parseDec exchangeRate
    if rate.num ≤ 0 then none
    else
      match taxRate with
      | some tr =>
        -- JS truthiness: the validation block is skipped for the empty string
        if tr = "" then
          pure ⟨journalId, accountId, lineNumber, description, debitAmount,
            creditAmount, originalAmount, exchangeRate, taxCode, taxAmount, taxRate⟩
        else do
          let trd ← parseDec tr
          if trd.isNeg || (Dec.cmp trd ⟨1, 0⟩) > 0 then none
          else pure ⟨journalId, accountId, lineNumber, description, debitAmount,
            creditAmount, originalAmount, exchangeRate, taxCode, taxAmount, taxRate⟩
      | none => pure ⟨journalId, accountId, lineNumber, description, debitAmount,
          creditAmount, originalAmount, exchangeRate, taxCode, taxAmount, taxRate⟩

def isDebit (l : JournalLine) : Bool := !l.debitAmount.isZero

def isCredit (l : JournalLine) : Bool := !l.creditAmount.isZero

/-- `getAmount`: the non-zero side. -/
def getAmount (l : JournalLine) : Money :=
  if l.isDebit then l.debitAmount else l.creditAmount

/-- `validateExchangeCalculation`: `|original × rate − booked| ≤ 0.0001`.
The subtraction throws (`none`) when the original currency differs from the
booking currency, exactly as `Money.subtract` does in the source. -/
def validateExchangeCalculation (l : JournalLine) : Option Bool := do
  let rate ← parseDec l.exchangeRate
  let expected := l.originalAmount.multiply rate
  let actual := l.getAmount
  let difference ← expected.subtract actual
  let diffAbs := difference.abs
  let tolerance ← Money.create "0.0001" actual.currency
  let lt ← diffAbs.lessThan tolerance
  pure (lt || diffAbs.equals tolerance)

/-- `update`: fields replaced when given, no re-validation (the source
constructs the new object directly). -/
structure UpdateProps where
  lineNumber : Option Nat := none
  description : Option String := none
  debitAmount : Option Money := none
  creditAmount : Option Money := none
  originalAmount : Option Money := none
  exchangeRate : Option String := none
  taxCode : Option String := none
  taxAmount : Option Money := none
  taxRate : Option String := none

def update (l : JournalLine) (u : UpdateProps) : JournalLine :=
  ⟨l.journalId, l.accountId,
   u.lineNumber.getD l.lineNumber,
   u.description.getD l.description,
   u.debitAmount.getD l.debitAmount,
   u.creditAmount.getD l.creditAmount,
   u.originalAmount.getD l.originalAmount,
   u.exchangeRate.getD l.exchangeRate,
   u.taxCode <|> l.taxCode,
   u.taxAmount <|> l.taxAmount,
   u.taxRate <|> l.taxRate⟩

/-- `toHashData`: line payload for hashing; the original amount is split
into a debit or credit column, tax fields default to the 4-digit zero. -/
def toHashData (l : JournalLine) : JournalLineHashData :=
  { accountId := l.accountId
    lineNumber := l.lineNumber
    description := l.description
    debitAmount := l.debitAmount.amount
    creditAmount := l.creditAmount.amount
    originalCurrency := l.originalAmount.currency
    originalDebitAmount := if l.isDebit then l.originalAmount.amount else "0.0000"
    originalCreditAmount := if l.isCredit then l.originalAmount.amount else "0.0000"
    exchangeRate := l.exchangeRate
    taxCode := l.taxCode
    taxAmount := some (jsOrStr (l.taxAmount.map Money.amount) "0.0000")
    taxRate := some (jsOrStr l.taxRate "0.0000") }

end JournalLine

/-- Journal aggregate root (`Journal`): immutable once posted. -/
structure Journal where
  id : String
  organizationId : String
  periodId : String
  journalNumber : String
  description : String
  reference : Option String
  postingDate : Int
  status : String
  currency : String
  lines : List JournalLine
  hashPrev : Option String
  hashSelf : Option String
  reversalJournalId : Option String
  originalJournalId : Option String
  extUid : Option String
  createdBy : String
  postedBy : Option String
  postedAt : Option Int
  createdAt : Int
  updatedAt : Int
  deriving DecidableEq, Repr

/-- Creation payload (`CreateJournalProps`). -/
structure CreateJournalProps where
  id : String
  organizationId : String
  periodId : String
  journalNumber : String
  description : String
  reference : Option String := none
  postingDate : Int
  currency : String
  lines : List JournalLine
  originalJournalId : Option String := none
  extUid : Option String := none
  createdBy : String

namespace Journal

/-- `getTotalDebit`: fold of `Money.add` over the debit sides starting from
zero in the journal currency; `none` models the exception a line in a
foreign currency would raise. -/
def getTotalDebit (j : Journal) : Option Money :=
  j.lines.foldl (fun acc l => acc.bind (fun m => m.add l.debitAmount))
    (some (Money.zero j.currency))

/-- `getTotalCredit`: as `getTotalDebit`, over the credit sides. -/
def getTotalCredit (j : Journal) : Option Money :=
  j.lines.foldl (fun acc l => acc.bind (fun m => m.add l.creditAmount))
    (some (Money.zero j.currency))

/-- `isBalanced`: totals compared with `Money.equals`. -/
def isBalanced (j : Journal) : Option Bool := do
  let td ← j.getTotalDebit
  let tc ← j.getTotalCredit
  pure (td.equals tc)

/-- Exchange-tolerance sweep of `validateBusinessRules`: first offending
line fails, a cross-currency subtraction inside the check throws. -/
def checkExchangeCalculations : List JournalLine → Res Unit
  | [] => .ok ()
  | l :: rest =>
    match l.validateExchangeCalculation with
    | none => .thrown "Cannot subtract different currencies"
    | some false => .fail ⟨DomainErrorCodes.VALIDATION_FAILED,
        "Invalid exchange rate calculation for line " ++ toString l.lineNumber, none⟩
    | some true => checkExchangeCalculations rest

/-- `validateBusinessRules`: balance (with the totals in `details` on
failure), sequential line numbers from 1, per-line exchange tolerance. -/
def validateBusinessRules (j : Journal) : Res Unit :=
  match j.getTotalDebit, j.getTotalCredit with
  | some td, some tc =>
    if !(td.equals tc) then
      .fail ⟨DomainErrorCodes.UNBALANCED_JOURNAL, "Journal debits must equal credits",
        some (.obj [("totalDebit", .s td.toStr), ("totalCredit", .s tc.toStr)])⟩
    else
      let lineNumbers := stableSort (fun a b => a < b) (j.lines.map (·.lineNumber))
      if !(lineNumbers.enum.all (fun p => p.2 == p.1 + 1)) then
        .fail ⟨DomainErrorCodes.VALIDATION_FAILED,
          "Journal line numbers must be sequential starting from 1", none⟩
      else checkExchangeCalculations j.lines
  | _, _ => .thrown "Cannot add different currencies"

/-- `Journal.create`: field validations, then a draft journal (no hashes),
then the business rules. -/
def create (props : CreateJournalProps) (now : Int) : Res Journal :=
  if jsTrim props.description = "" then
    .fail ⟨DomainErrorCodes.VALIDATION_FAILED, "Journal description is required", none⟩
  else if jsTrim props.journalNumber = "" then
    .fail ⟨DomainErrorCodes.VALIDATION_FAILED, "Journal number is required", none⟩
  else if props.lines.isEmpty then
    .fail ⟨DomainErrorCodes.VALIDATION_FAILED, "Journal must have at least one line", none⟩
  else if props.lines.any (fun l =>
      l.debitAmount.currency != props.currency || l.creditAmount.currency != props.currency) then
    .fail ⟨DomainErrorCodes.VALIDATION_FAILED,
      "All journal lines must use the same currency as the journal", none⟩
  else
    let journal : Journal :=
      ⟨props.id, props.organizationId, props.periodId, props.journalNumber,
       props.description, props.reference, props.postingDate, "draft",
       props.currency, props.lines, none, none, none, props.originalJournalId,
       props.extUid, props.createdBy, none, none, now, now⟩
    match journal.validateBusinessRules with
    | .fail e => .fail e
    | .thrown m => .thrown m
    | .ok _ => .ok journal

/-- `toHashData`: payload of immutable-after-posting fields.  Callers reach
it only after validation, so the totals exist; a currency mismatch would
have thrown earlier (rendered here as the unreachable empty string). -/
def toHashData (j : Journal) : JournalHashData :=
  { organizationId := j.organizationId
    periodId := j.periodId
    journalNumber := j.journalNumber
    description := j.description
    reference := j.reference
    postingDate := j.postingDate
    totalDebit := ((j.getTotalDebit).map Money.amount).getD ""
    totalCredit := ((j.getTotalCredit).map Money.amount).getD ""
    currency := j.currency
    hashPrev := j.hashPrev
    lines := j.lines.map JournalLine.toHashData }

/-- `Journal.post`: only drafts, revalidate, seal `hash_self` over the
payload with the chain predecessor, stamp `posted_by` and `posted_at`. -/
def post (j : Journal) (postedBy : String) (previousHash : Option String)
    (H : String → String) (now : Int) : Res Journal :=
  if j.status != "draft" then
    .fail ⟨DomainErrorCodes.JOURNAL_ALREADY_POSTED, "Journal is already posted or reversed", none⟩
  else
    match j.validateBusinessRules with
    | .fail e => .fail e
    | .thrown m => .thrown m
    | .ok _ =>
      let hashSelf := JournalHash.generateWithPrevious H j.toHashData previousHash
      .ok { j with status := "posted", hashPrev := previousHash,
                   hashSelf := some hashSelf, postedBy := some postedBy,
                   postedAt := some now, updatedAt := now }

/-- `Journal.createReversal`: mirror lines (debit/credit swapped,
description prefixed), the ORIGINAL `period_id`, `journal_number` suffixed
with `-REV`, posting date the reversal date, linked back by id.  The source
also constructs a reversed copy of the original here and discards it; the
surviving reversed original is built by the posting service instead. -/
def createReversal (j : Journal) (reversalJournalId reversalDescription : String)
    (reversalDate : Int) (createdBy : String) (now : Int) : Res Journal :=
  if j.status != "posted" then
    .fail ⟨DomainErrorCodes.BUSINESS_RULE_VIOLATION, "Only posted journals can be reversed", none⟩
  else
    let reversedLines := j.lines.map (fun l =>
      l.update { debitAmount := some l.creditAmount,
                 creditAmount := some l.debitAmount,
                 description := some ("REVERSAL: " ++ l.description) })
    let reversalProps : CreateJournalProps :=
      { id := reversalJournalId
        organizationId := j.organizationId
        periodId := j.periodId
        journalNumber := j.journalNumber ++ "-REV"
        description := reversalDescription
        reference := some ("REV-" ++ jsOrStr j.reference j.journalNumber)
        postingDate := reversalDate
        currency := j.currency
        lines := reversedLines
        originalJournalId := some j.id
        createdBy := createdBy }
    create reversalProps now

end Journal

/-- Tenant-scoped storage state observed through the repository interfaces:
the journal and period relations. -/
structure DB where
  journals : List Journal
  periods : List Period
  deriving Repr

namespace JournalRepository

/-- Strict chronological order used by `findPostedJournalsChronological`:
`posted_at` ascending, then `journal_number` ascending. -/
def chronoLt (a b : Journal) : Bool :=
  a.postedAt.getD 0 < b.postedAt.getD 0 ||
    (a.postedAt.getD 0 == b.postedAt.getD 0 && a.journalNumber < b.journalNumber)

/-- Reverse chronological order used by `findLastPostedJournal`
(`ORDER BY posted_at DESC, journal_number DESC`). -/
def chronoGt (a b : Journal) : Bool :=
  a.postedAt.getD 0 > b.postedAt.getD 0 ||
    (a.postedAt.getD 0 == b.postedAt.getD 0 && b.journalNumber < a.journalNumber)

def findById (db : DB) (journalId organizationId : String) : Option Journal :=
  db.journals.find? (fun j => j.id == journalId && j.organizationId == organizationId)

/-- `findPostedJournalsChronological`: note the filter selects
`status = posted` ONLY — journals whose status is `reversed` are excluded
from the walk. -/
def findPostedJournalsChronological (db : DB) (organizationId : String) : List Journal :=
  stableSort chronoLt
    (db.journals.filter (fun j => j.organizationId == organizationId && j.status == "posted"))

/-- `findLastPostedJournal`: first row of the descending order; the same
`status = posted` filter. -/
def findLastPostedJournal (db : DB) (organizationId : String) : Option Journal :=
  (stableSort chronoGt
    (db.journals.filter (fun j => j.organizationId == organizationId && j.status == "posted"))).head?

def existsByJournalNumber (db : DB) (journalNumber organizationId : String) : Bool :=
  db.journals.any (fun j => j.journalNumber == journalNumber && j.organizationId == organizationId)

def existsByExtUid (db : DB) (extUid organizationId : String) : Bool :=
  db.journals.any (fun j => j.extUid == some extUid && j.organizationId == organizationId)

/-- `save`: upsert of the journal row (and, transactionally, its lines). -/
def save (db : DB) (j : Journal) : DB :=
  if db.journals.any (fun o => o.id == j.id) then
    { db with journals := db.journals.map (fun o => if o.id == j.id then j else o) }
  else
    { db with journals := db.journals ++ [j] }

/-- `saveMultiple`: the journals saved in one transaction. -/
def saveMultiple (db : DB) (js : List Journal) : DB := js.foldl save db

end JournalRepository

namespace PeriodRepository

def findById (db : DB) (periodId organizationId : String) : Option Period :=
  db.periods.find? (fun p => p.id == periodId && p.organizationId == organizationId)

/-- `findByDate`: first period containing the date (`start ≤ d ≤ end`,
`LIMIT 1`). -/
def findByDate (db : DB) (date : Int) (organizationId : String) : Option Period :=
  db.periods.find? (fun p =>
    p.organizationId == organizationId && p.startDate ≤ date && date ≤ p.endDate)

/-- `findOverlappingPeriods`: the *inclusive* intersection test
`p.start ≤ end ∧ p.end ≥ start`, ordered by start date. -/
def findOverlappingPeriods (db : DB) (startDate endDate : Int)
    (organizationId : String) (excludePeriodId : Option String) : List Period :=
  stableSort (fun a b => a.startDate < b.startDate)
    (db.periods.filter (fun p =>
      p.organizationId == organizationId &&
      p.startDate ≤ endDate && p.endDate ≥ startDate &&
      (match excludePeriodId with
       | some e => p.id != e
       | none => true)))

def save (db : DB) (p : Period) : DB :=
  if db.periods.any (fun o => o.id == p.id) then
    { db with periods := db.periods.map (fun o => if o.id == p.id then p else o) }
  else
    { db with periods := db.periods ++ [p] }

end PeriodRepository

/-- Chain verification report (`HashChainVerificationResult`). -/
structure HashChainVerificationResult where
  isValid : Bool
  totalJournals : Nat
  invalidJournals : List String
  brokenChainAt : Option String
  deriving DecidableEq, Repr

namespace HashService

/-- `createHashDataFromJournal`: builds the same payload as
`Journal.toHashData` (the two functions in the source are textually the
same field list). -/
def createHashDataFromJournal (j : Journal) : JournalHashData := j.toHashData

/-- `getPreviousHash`: `hash_self` of the journal `findLastPostedJournal`
returns, `none` for a fresh organization, an `INVALID_HASH_CHAIN` failure
when that journal has no sealed hash. -/
def getPreviousHash (db : DB) (organizationId : String) : Res (Option String) :=
  match JournalRepository.findLastPostedJournal db organizationId with
  | none => .ok none
  | some lastJournal =>
    match lastJournal.hashSelf with
    | none => .fail ⟨DomainErrorCodes.INVALID_HASH_CHAIN, "Last posted journal missing hash",
        some (.obj [("journalId", .s lastJournal.id)])⟩
    | some h => .ok (some h)

/-- `verifyHashChain`: recompute the hash of one journal and compare with
the stored `hash_self`. -/
def verifyHashChain (H : String → String) (j : Journal) : Res Bool :=
  match j.hashSelf with
  | none => .fail ⟨DomainErrorCodes.INVALID_HASH_CHAIN, "Journal missing self hash", none⟩
  | some h =>
    if JournalHash.verify h H (createHashDataFromJournal j) then .ok true
    else .fail ⟨DomainErrorCodes.INVALID_HASH_CHAIN, "Journal hash verification failed",
      some (.obj [("journalId", .s j.id)])⟩

/-- Loop body of `verifyOrganizationHashChain`: per-journal verification
failures are collected and the walk continues; a linkage break returns
immediately with `brokenChainAt`. -/
def chainWalk (H : String → String) (total : Nat) :
    List Journal → Nat → Option String → List String → HashChainVerificationResult
  | [], _, _, invalid => ⟨invalid.isEmpty, total, invalid, none⟩
  | j :: rest, i, prev, invalid =>
    match verifyHashChain H j with
    | .ok _ =>
      if i == 0 then
        match j.hashPrev with
        | some _ => ⟨false, total, invalid, some j.id⟩
        | none => chainWalk H total rest (i + 1) j.hashSelf invalid
      else
        match j.hashPrev, prev with
        | some hp, some ph =>
          if hp == ph then chainWalk H total rest (i + 1) j.hashSelf invalid
          else ⟨false, total, invalid, some j.id⟩
        | _, _ => ⟨false, total, invalid, some j.id⟩
    | _ => chainWalk H total rest (i + 1) prev (invalid ++ [j.id])

/-- `verifyOrganizationHashChain`: walk the chronological `posted` sequence
(reversed journals are filtered out by the repository query). -/
def verifyOrganizationHashChain (H : String → String) (db : DB)
    (organizationId : String) : Res HashChainVerificationResult :=
  let journals := JournalRepository.findPostedJournalsChronological db organizationId
  if journals.isEmpty then
    .ok ⟨true, 0, [], none⟩
  else
    .ok (chainWalk H journals.length journals 0 none [])

end HashService

namespace PeriodService

/-- `createPeriod`: entity validation, then the repository overlap query;
any overlapping period rejects with `BUSINESS_RULE_VIOLATION` carrying the
conflicting periods, else the period is saved. -/
def createPeriod (db : DB) (id organizationId name : String)
    (startDate endDate : Int) (now : Int) : Res Period × DB :=
  match Period.create id organizationId name startDate endDate now with
  | .fail e => (.fail e, db)
  | .thrown m => (.thrown m, db)
  | .ok period =>
    let overlapping := PeriodRepository.findOverlappingPeriods db startDate endDate organizationId none
    if !overlapping.isEmpty then
      (.fail ⟨DomainErrorCodes.BUSINESS_RULE_VIOLATION, "Period overlaps with existing periods",
        some (.obj [("overlappingPeriods", .arr (overlapping.map (fun p =>
          .obj [("id", .s p.id), ("name", .s p.name),
                ("startDate", .n p.startDate), ("endDate", .n p.endDate)])))])⟩, db)
    else
      (.ok period, PeriodRepository.save db period)

/-- `validatePeriodForPosting`: load, `ENTITY_NOT_FOUND` when absent,
`PERIOD_CLOSED` unless `open`. -/
def validatePeriodForPosting (db : DB) (periodId organizationId : String) : Res Period :=
  match PeriodRepository.findById db periodId organizationId with
  | none => .fail ⟨DomainErrorCodes.ENTITY_NOT_FOUND, "Period not found", none⟩
  | some period =>
    if !period.allowsPosting then
      .fail ⟨DomainErrorCodes.PERIOD_CLOSED, "Cannot post to closed or closing period",
        some (.obj [("periodId", .s period.id), ("periodStatus", .s period.status),
                    ("periodName", .s period.name)])⟩
    else .ok period

end PeriodService

namespace JournalService

/-- `createDraftJournal`: period open, posting date inside the period,
journal number and external UID unique, aggregate valid, then saved as a
draft.  On any failure the state is returned unchanged: nothing persists. -/
def createDraftJournal (db : DB) (props : CreateJournalProps) (now : Int) :
    Res Journal × DB :=
  match PeriodService.validatePeriodForPosting db props.periodId props.organizationId with
  | .fail e => (.fail e, db)
  | .thrown m => (.thrown m, db)
  | .ok period =>
    if !(period.containsDate props.postingDate) then
      (.fail ⟨DomainErrorCodes.VALIDATION_FAILED, "Posting date must be within the selected period",
        some (.obj [("postingDate", .s (dateToISO props.postingDate)),
                    ("periodStart", .s (dateToISO period.startDate)),
                    ("periodEnd", .s (dateToISO period.endDate))])⟩, db)
    else if JournalRepository.existsByJournalNumber db props.journalNumber props.organizationId then
      (.fail ⟨DomainErrorCodes.BUSINESS_RULE_VIOLATION, "Journal number already exists",
        some (.obj [("journalNumber", .s props.journalNumber)])⟩, db)
    else
      match props.extUid with
      | some uid =>
        if JournalRepository.existsByExtUid db uid props.organizationId then
          (.fail ⟨DomainErrorCodes.BUSINESS_RULE_VIOLATION, "External UID already exists",
            some (.obj [("extUid", .s uid)])⟩, db)
        else
          match Journal.create props now with
          | .fail e => (.fail e, db)
          | .thrown m => (.thrown m, db)
          | .ok journal => (.ok journal, JournalRepository.save db journal)
      | none =>
        match Journal.create props now with
        | .fail e => (.fail e, db)
        | .thrown m => (.thrown m, db)
        | .ok journal => (.ok journal, JournalRepository.save db journal)

end JournalService

namespace PostingService

/-- `validateJournalForPosting`: draft status, balance (totals in the error
details), non-empty lines, journal-number and ext-uid uniqueness re-checks. -/
def validateJournalForPosting (db : DB) (journal : Journal) : Res Unit :=
  if journal.status != "draft" then
    .fail ⟨DomainErrorCodes.BUSINESS_RULE_VIOLATION, "Only draft journals can be posted", none⟩
  else
    match journal.getTotalDebit, journal.getTotalCredit with
    | some td, some tc =>
      if !(td.equals tc) then
        .fail ⟨DomainErrorCodes.UNBALANCED_JOURNAL, "Journal is not balanced",
          some (.obj [("totalDebit", .s td.toStr), ("totalCredit", .s tc.toStr)])⟩
      else if journal.lines.isEmpty then
        .fail ⟨DomainErrorCodes.VALIDATION_FAILED, "Journal must have at least one line", none⟩
      else if JournalRepository.existsByJournalNumber db journal.journalNumber journal.organizationId then
        .fail ⟨DomainErrorCodes.BUSINESS_RULE_VIOLATION, "Journal number already exists",
          some (.obj [("journalNumber", .s journal.journalNumber)])⟩
      else
        match journal.extUid with
        | some uid =>
          if JournalRepository.existsByExtUid db uid journal.organizationId then
            .fail ⟨DomainErrorCodes.BUSINESS_RULE_VIOLATION, "External UID already exists",
              some (.obj [("extUid", .s uid)])⟩
          else .ok ()
        | none => .ok ()
    | _, _ => .thrown "Cannot add different currencies"

/-- `postJournal`: load, validate, period open, previous hash, seal, save. -/
def postJournal (db : DB) (journalId organizationId postedBy : String)
    (H : String → String) (now : Int) : Res Journal × DB :=
  match JournalRepository.findById db journalId organizationId with
  | none => (.fail ⟨DomainErrorCodes.ENTITY_NOT_FOUND, "Journal not found", none⟩, db)
  | some journal =>
    match validateJournalForPosting db journal with
    | .fail e => (.fail e, db)
    | .thrown m => (.thrown m, db)
    | .ok _ =>
      match PeriodRepository.findById db journal.periodId organizationId with
      | none => (.fail ⟨DomainErrorCodes.ENTITY_NOT_FOUND, "Period not found", none⟩, db)
      | some period =>
        if !period.allowsPosting then
          (.fail ⟨DomainErrorCodes.PERIOD_CLOSED, "Cannot post to closed or closing period",
            some (.obj [("periodId", .s period.id), ("periodStatus", .s period.status),
                        ("periodName", .s period.name)])⟩, db)
        else
          match HashService.getPreviousHash db organizationId with
          | .fail e => (.fail e, db)
          | .thrown m => (.thrown m, db)
          | .ok previousHash =>
            match journal.post postedBy previousHash H now with
            | .fail e => (.fail e, db)
            | .thrown m => (.thrown m, db)
            | .ok posted => (.ok posted, JournalRepository.save db posted)

/-- `reverseJournal`: load the original, require `posted` and not already
reversed, require an open period containing the reversal date, build and
post the mirror journal, mark the original `reversed` (hashes untouched),
save both in one transaction.  Note the absence of any check that the
reversal date lies at or after the original posting date or within 365
days of it. -/
def reverseJournal (db : DB) (originalJournalId organizationId : String)
    (reversalDescription : String) (reversalDate : Int) (createdBy : String)
    (genId : String) (H : String → String) (now : Int) :
    Res (Journal × Journal) × DB :=
  match JournalRepository.findById db originalJournalId organizationId with
  | none => (.fail ⟨DomainErrorCodes.ENTITY_NOT_FOUND, "Original journal not found", none⟩, db)
  | some original =>
    if original.status != "posted" then
      (.fail ⟨DomainErrorCodes.BUSINESS_RULE_VIOLATION, "Only posted journals can be reversed", none⟩, db)
    else if original.reversalJournalId.isSome then
      (.fail ⟨DomainErrorCodes.BUSINESS_RULE_VIOLATION, "Journal has already been reversed", none⟩, db)
    else
      match PeriodRepository.findByDate db reversalDate organizationId with
      | none => (.fail ⟨DomainErrorCodes.ENTITY_NOT_FOUND, "No period found for reversal date", none⟩, db)
      | some reversalPeriod =>
        if !reversalPeriod.allowsPosting then
          (.fail ⟨DomainErrorCodes.PERIOD_CLOSED, "Cannot post reversal to closed or closing period",
            some (.obj [("periodId", .s reversalPeriod.id),
                        ("periodStatus", .s reversalPeriod.status)])⟩, db)
        else
          match original.createReversal genId reversalDescription reversalDate createdBy now with
          | .fail e => (.fail e, db)
          | .thrown m => (.thrown m, db)
          | .ok reversalJournal =>
            match HashService.getPreviousHash db organizationId with
            | .fail e => (.fail e, db)
            | .thrown m => (.thrown m, db)
            | .ok previousHash =>
              match reversalJournal.post createdBy previousHash H now with
              | .fail e => (.fail e, db)
              | .thrown m => (.thrown m, db)
              | .ok postedReversal =>
                let reversedOriginal : Journal :=
                  { original with status := "reversed",
                                  reversalJournalId := some genId,
                                  updatedAt := now }
                let db2 := JournalRepository.saveMultiple db [reversedOriginal, postedReversal]
                (.ok (reversedOriginal, postedReversal), db2)

end PostingService

/-- One entry of the issue list `validateForReversal` produces. -/
structure ValidationIssue where
  field : String
  code : String
  message : String
  deriving DecidableEq, Repr

/-- Report of `validateForReversal` (`ReversalValidationResult`). -/
structure ReversalValidationResult where
  isValid : Bool
  issues : List ValidationIssue
  canReverse : Bool
  deriving DecidableEq, Repr

/-- `ReverseJournalUseCase.validateForReversal`: the use-case level
validation that DOES check the reversal-date rules — posted status, not
already reversed, `reversalDate ≥ posting_date`, and at most 365 days
after it.  The reversal execution path never invokes this method. -/
def validateForReversal (db : DB) (journalId organizationId : String)
    (reversalDate : Int) : Res ReversalValidationResult :=
  match JournalRepository.findById db journalId organizationId with
  | none => .fail ⟨"JOURNAL_NOT_FOUND", "Journal not found", none⟩
  | some journal =>
    let issues : List ValidationIssue :=
      (if journal.status != "posted" then
        [⟨"status", "NOT_POSTED", "Only posted journals can be reversed"⟩] else []) ++
      (if journal.reversalJournalId.isSome then
        [⟨"reversalStatus", "ALREADY_REVERSED", "Journal has already been reversed"⟩] else []) ++
      (if reversalDate < journal.postingDate then
        [⟨"reversalDate", "INVALID_REVERSAL_DATE",
          "Reversal date cannot be before original posting date"⟩] else []) ++
      (if Int.fdiv (reversalDate - journal.postingDate) 86400000 > 365 then
        [⟨"reversalDate", "REVERSAL_DATE_TOO_LATE",
          "Reversal date cannot be more than 365 days after original posting"⟩] else [])
    .ok ⟨issues.isEmpty, issues, issues.isEmpty⟩

/-- Extract a success value, with a default for the impossible branches of
concrete fixtures. -/
def resGetD {α : Type} (r : Res α) (dflt : α) : α :=
  match r with
  | .ok a => a
  | _ => dflt

def Res.isOk {α : Type} : Res α → Bool
  | .ok _ => true
  | _ => false

/-- Placeholder journal used as the default of `resGetD` on fixtures whose
construction provably succeeds. -/
def dummyJournal : Journal :=
  ⟨"", "", "", "", "", none, 0, "", "", [], none, none, none, none, none, "", none, none, 0, 0⟩

/-- Deterministic injective stand-in for the injected SHA-256 capability,
used to evaluate the hash pipeline on concrete inputs. -/
def testHash (s : String) : String := "sha-" ++ s

def orgA : String := "org-1"

/-- Open period 2024-Q2 (the S1 fixture of the spec). -/
def periodQ2 : Period :=
  ⟨"p-2024q2", orgA, "2024-Q2", mkDate 2024 4 1, mkDate 2024 6 30, "open",
   mkDate 2024 3 1, mkDate 2024 3 1⟩

/-- Open period 2024-Q3, used to exercise reversal dates outside the
original period. -/
def periodQ3 : Period :=
  ⟨"p-2024q3", orgA, "2024-Q3", mkDate 2024 7 1, mkDate 2024 9 30, "open",
   mkDate 2024 3 1, mkDate 2024 3 1⟩

/-- EUR money literal from a mantissa and scale. -/
def eur (n : Int) (s : Nat) : Money := ⟨⟨n, s⟩, "EUR"⟩

def cashLine : JournalLine :=
  ⟨"j-1", "1000-cash", 1, "Cash receipt", eur 150000 2, eur 0 0, eur 150000 2,
   "1.000000", none, none, none⟩

def revenueLine : JournalLine :=
  ⟨"j-1", "4000-revenue", 2, "Service revenue", eur 0 0, eur 150000 2, eur 150000 2,
   "1.000000", none, none, none⟩

/-- Balanced EUR draft payload (the S1 scenario journal). -/
def draftProps : CreateJournalProps :=
  { id := "j-1", organizationId := orgA, periodId := "p-2024q2",
    journalNumber := "JRN-2024-001", description := "Sale of services",
    postingDate := mkDate 2024 5 15, currency := "EUR",
    lines := [cashLine, revenueLine], createdBy := "user-1" }

def draftJ : Journal := resGetD (Journal.create draftProps (mkDate 2024 5 1)) dummyJournal

/-- The S1 journal sealed by `Journal.post` at the head of the chain. -/
def postedJ : Journal :=
  resGetD (draftJ.post "user-1" none testHash (mkDate 2024 5 15)) dummyJournal

/-- State with the posted journal and its open period. -/
def db1 : DB := ⟨[postedJ], [periodQ2]⟩

/-- The S6-style reversal of `postedJ` five days later. -/
def revCall : Res (Journal × Journal) × DB :=
  PostingService.reverseJournal db1 "j-1" orgA "Error correction" (mkDate 2024 5 20)
    "user-2" "j-2" testHash (mkDate 2024 5 20)

def revPair : Journal × Journal := resGetD revCall.1 (dummyJournal, dummyJournal)

def revDb : DB := revCall.2

/-- Claim C9: for an organization whose repository returns zero posted
journals, chain verification succeeds and returns exactly
`isValid = true, totalJournals = 0, invalidJournals = [], brokenChainAt = null`. -/
theorem verify_empty_chain (H : String → String) (db : DB) (org : String)
    (h : JournalRepository.findPostedJournalsChronological db org = []) :
    HashService.verifyOrganizationHashChain H db org = .ok ⟨true, 0, [], none⟩ := by
  unfold HashService.verifyOrganizationHashChain
  rw [h]
  rfl

/-- Witness for C9: the empty store has no posted journals and verification
returns the exact empty report. -/
theorem verify_empty_chain_witness :
    HashService.verifyOrganizationHashChain testHash ⟨[], []⟩ orgA = .ok ⟨true, 0, [], none⟩ :=
  verify_empty_chain testHash ⟨[], []⟩ orgA rfl

def unbalancedLines : List JournalLine :=
  [⟨"j-9", "1000-cash", 1, "Debit line", eur 10000 2, eur 0 0, eur 10000 2,
    "1.000000", none, none, none⟩,
   ⟨"j-9", "4000-revenue", 2, "Credit line", eur 0 0, eur 9999 2, eur 9999 2,
    "1.000000", none, none, none⟩]

/-- Draft payload with one 100.00 debit and one 99.99 credit (scenario S3). -/
def unbalancedProps : CreateJournalProps :=
  { id := "j-9", organizationId := orgA, periodId := "p-2024q2",
    journalNumber := "JRN-2024-009", description := "Unbalanced entry",
    postingDate := mkDate 2024 5 16, currency := "EUR",
    lines := unbalancedLines, createdBy := "user-1" }

/-- The same journal as a stored draft, to exercise the posting path. -/
def unbalancedDraft : Journal :=
  ⟨"j-9", orgA, "p-2024q2", "JRN-2024-009", "Unbalanced entry", none,
   mkDate 2024 5 16, "draft", "EUR", unbalancedLines, none, none, none, none,
   none, "user-1", none, none, mkDate 2024 5 16, mkDate 2024 5 16⟩

def dbU : DB := ⟨[unbalancedDraft], [periodQ2]⟩

/-- Claim C8: the unbalanced 100.00 / 99.99 EUR journal is rejected at both
creation and posting with `UNBALANCED_JOURNAL` and details exactly
`totalDebit = "100.0000 EUR"`, `totalCredit = "99.9900 EUR"`, and in both
cases the store is unchanged: nothing is persisted. -/
theorem unbalanced_journal_rejected :
    JournalService.createDraftJournal ⟨[], [periodQ2]⟩ unbalancedProps (mkDate 2024 5 16) =
      (.fail ⟨DomainErrorCodes.UNBALANCED_JOURNAL, "Journal debits must equal credits",
        some (.obj [("totalDebit", .s "100.0000 EUR"), ("totalCredit", .s "99.9900 EUR")])⟩,
       ⟨[], [periodQ2]⟩) ∧
    PostingService.postJournal dbU "j-9" orgA "user-1" testHash (mkDate 2024 5 16) =
      (.fail ⟨DomainErrorCodes.UNBALANCED_JOURNAL, "Journal is not balanced",
        some (.obj [("totalDebit", .s "100.0000 EUR"), ("totalCredit", .s "99.9900 EUR")])⟩,
       dbU) :=
  ⟨rfl, rfl⟩

/-- Claim C1 (code-bug evidence): reversing the only posted journal makes
the organization chain walk drop it — the repository queries filter
`status = posted` only — so the code's own verifier reports the chain
broken at the reversal journal even though every link is intact
(`R.hash_prev = J.hash_self`, `J.hash_self` untouched), and
`getPreviousHash` sees no chain head at all in a store whose only sealed
journal is `reversed`. -/
theorem reversed_journal_drops_out_of_chain :
    revCall.1.isOk = true ∧
    revPair.1.status = "reversed" ∧
    revPair.1.hashSelf = postedJ.hashSelf ∧
    revPair.2.hashPrev = postedJ.hashSelf ∧
    HashService.verifyOrganizationHashChain testHash revDb orgA =
      .ok ⟨false, 1, [], some "j-2"⟩ ∧
    (JournalRepository.findPostedJournalsChronological revDb orgA).map Journal.id = ["j-2"] ∧
    (revDb.journals.filter (fun j => j.status == "posted" || j.status == "reversed")).map
      Journal.id = ["j-1", "j-2"] ∧
    HashService.getPreviousHash ⟨[revPair.1], [periodQ2]⟩ orgA = .ok none ∧
    revPair.1.hashSelf.isSome = true :=
  ⟨rfl, rfl, rfl, rfl, rfl, rfl, rfl, rfl, rfl⟩

/-- Open full-year 2025 period, giving reversal dates far beyond 365 days a
home. -/
def periodFY25 : Period :=
  ⟨"p-2025", orgA, "FY2025", mkDate 2025 1 1, mkDate 2025 12 31, "open",
   mkDate 2024 3 1, mkDate 2024 3 1⟩

def dbLate : DB := ⟨[postedJ], [periodQ2, periodFY25]⟩

/-- Claim C2 (code-bug evidence): `reverseJournal` accepts a reversal date
before the original posting date, and one 401 days after it, saving both
journals — while the use case's own `validateForReversal` flags exactly
these inputs as not reversible.  The execution path never calls it. -/
theorem reversal_date_rules_not_enforced :
    mkDate 2024 4 10 < postedJ.postingDate ∧
    (PostingService.reverseJournal db1 "j-1" orgA "Backdated reversal" (mkDate 2024 4 10)
      "user-2" "j-3" testHash (mkDate 2024 5 20)).1.isOk = true ∧
    (PostingService.reverseJournal db1 "j-1" orgA "Backdated reversal" (mkDate 2024 4 10)
      "user-2" "j-3" testHash (mkDate 2024 5 20)).2.journals.map Journal.id = ["j-1", "j-3"] ∧
    validateForReversal db1 "j-1" orgA (mkDate 2024 4 10) =
      .ok ⟨false, [⟨"reversalDate", "INVALID_REVERSAL_DATE",
        "Reversal date cannot be before original posting date"⟩], false⟩ ∧
    (PostingService.reverseJournal dbLate "j-1" orgA "Late reversal" (mkDate 2025 6 20)
      "user-2" "j-4" testHash (mkDate 2025 6 20)).1.isOk = true ∧
    (PostingService.reverseJournal dbLate "j-1" orgA "Late reversal" (mkDate 2025 6 20)
      "user-2" "j-4" testHash (mkDate 2025 6 20)).2.journals.map Journal.id = ["j-1", "j-4"] ∧
    validateForReversal dbLate "j-1" orgA (mkDate 2025 6 20) =
      .ok ⟨false, [⟨"reversalDate", "REVERSAL_DATE_TOO_LATE",
        "Reversal date cannot be more than 365 days after original posting"⟩], false⟩ :=
  ⟨by decide, rfl, rfl, rfl, rfl, rfl, rfl⟩

/-- The overlap predicate exactly as the spec words it: closed intervals,
boundaries inclusive — `a.start ≤ b.end ∧ b.start ≤ a.end`. -/
def specOverlap (aStart aEnd bStart bEnd : Int) : Prop :=
  aStart ≤ bEnd ∧ bStart ≤ aEnd

instance (aS aE bS bE : Int) : Decidable (specOverlap aS aE bS bE) :=
  inferInstanceAs (Decidable (aS ≤ bE ∧ bS ≤ aE))

/-- Existing period 2024-Q1 (the S4 fixture). -/
def pQ1 : Period :=
  ⟨"p-2024q1", orgA, "2024-Q1", mkDate 2024 1 1, mkDate 2024 3 31, "open",
   mkDate 2024 1 1, mkDate 2024 1 1⟩

/-- Candidate period sharing exactly the boundary date 2024-03-31 with
`pQ1`. -/
def pBoundary : Period :=
  ⟨"p-new", orgA, "2024-Q2x", mkDate 2024 3 31, mkDate 2024 6 30, "open",
   mkDate 2024 1 1, mkDate 2024 1 1⟩

def dbQ1 : DB := ⟨[], [pQ1]⟩

/-- Counterexample to claim C5 as stated: two periods of one organization
that merely share a boundary date satisfy the spec's inclusive test, yet
`Period.overlapsWith` — written with strict inequalities — reports no
overlap in either direction. -/
theorem overlapsWith_boundary_counterexample :
    specOverlap pQ1.startDate pQ1.endDate pBoundary.startDate pBoundary.endDate ∧
    pQ1.overlapsWith pBoundary = false ∧
    pBoundary.overlapsWith pQ1 = false := by
  refine ⟨⟨?_, ?_⟩, rfl, rfl⟩ <;> decide

/-- Claim C5 (amended): the repository query `createPeriod` consults uses
the inclusive closed-interval test of the spec, and a shared-boundary
creation is rejected with `BUSINESS_RULE_VIOLATION` listing the conflicting
period; the entity-level `Period.overlapsWith`, however, uses strict
inequalities, so boundary-sharing periods do not count as overlapping
there. -/
theorem period_overlap_semantics :
    (∀ (db : DB) (s e : Int) (org : String),
      PeriodRepository.findOverlappingPeriods db s e org none =
        stableSort (fun a b => a.startDate < b.startDate)
          (db.periods.filter (fun p =>
            p.organizationId == org && decide (specOverlap s e p.startDate p.endDate)))) ∧
    (∀ p q : Period,
      p.overlapsWith q = decide (p.startDate < q.endDate ∧ q.startDate < p.endDate)) ∧
    PeriodService.createPeriod dbQ1 "p-new" orgA "2024-Q2x" (mkDate 2024 3 31)
        (mkDate 2024 6 30) (mkDate 2024 1 1) =
      (.fail ⟨DomainErrorCodes.BUSINESS_RULE_VIOLATION, "Period overlaps with existing periods",
        some (.obj [("overlappingPeriods", .arr [.obj
          [("id", .s "p-2024q1"), ("name", .s "2024-Q1"),
           ("startDate", .n (mkDate 2024 1 1)), ("endDate", .n (mkDate 2024 3 31))]])])⟩,
       dbQ1) := by
  refine ⟨?_, ?_, rfl⟩
  · intro db s e org
    unfold PeriodRepository.findOverlappingPeriods
    congr 1
    apply List.filter_congr
    intro p _
    simp only [specOverlap, Bool.decide_and, ge_iff_le, Bool.and_true]
    cases h1 : (p.organizationId == org) <;>
      cases h2 : decide (p.startDate ≤ e) <;>
        cases h3 : decide (s ≤ p.endDate) <;> simp_all
  · intro p q
    simp [Period.overlapsWith, Bool.decide_and]

/-- Journal hash payload used to exhibit a delimiter collision: the
description and reference fields around the unescaped `:` separator. -/
def tamperBaseData : JournalHashData :=
  { organizationId := orgA, periodId := "p-2024q2", journalNumber := "JRN-2024-001",
    description := "a", reference := some "b:c", postingDate := mkDate 2024 5 15,
    totalDebit := "100.0000", totalCredit := "100.0000", currency := "EUR",
    hashPrev := none, lines := [] }

/-- The same payload with the description/reference boundary moved: both
fields changed, serialization identical. -/
def tamperedData : JournalHashData :=
  { tamperBaseData with description := "a:b", reference := some "c" }

/-- A tamper that does change the serialized bytes, for the witness. -/
def tamperedDescData : JournalHashData :=
  { tamperBaseData with description := "x" }

/-- Counterexample to claim C3 as stated: a posted journal whose
description and reference are both modified (using the unescaped delimiter
`:`) serializes to the same byte sequence, so `verifyJournal` still
returns `true` — an undetected tamper. -/
theorem tamper_collision_counterexample :
    tamperedData.description ≠ tamperBaseData.description ∧
    tamperedData.reference ≠ tamperBaseData.reference ∧
    JournalHash.serialize tamperedData = JournalHash.serialize tamperBaseData ∧
    JournalHash.verify (JournalHash.generate testHash tamperBaseData) testHash tamperedData
      = true := by
  refine ⟨by decide, by decide, rfl, rfl⟩

/-- The hash stand-in is injective: equal outputs force equal inputs. -/
theorem testHash_injective : Function.Injective testHash := by
  intro a b h
  have hd : ("sha-" ++ a).data = ("sha-" ++ b).data := congrArg String.data h
  rw [String.data_append, String.data_append] at hd
  have := List.append_cancel_left hd
  cases a
  cases b
  exact congrArg String.mk this

/-- Claim C3 (amended): tampering is detected exactly when it changes the
serialized byte sequence — with a collision-free hash, any modification
that alters `serialize(J)` makes `verifyJournal` return `false`; a
modification that leaves the serialization unchanged (possible because the
delimiters `:`, `|`, `;` are not escaped) is undetected. -/
theorem tamper_detection_requires_serialization_change (H : String → String)
    (hInj : Function.Injective H) (d dTampered : JournalHashData)
    (hneq : JournalHash.serialize dTampered ≠ JournalHash.serialize d) :
    JournalHash.verify (JournalHash.generate H d) H dTampered = false := by
  unfold JournalHash.verify JournalHash.generate
  rw [beq_eq_false_iff_ne]
  exact fun heq => hneq (hInj heq).symm

/-- Witness for the amended C3: a plain description change alters the
serialization and is detected under the injective stand-in hash. -/
theorem tamper_detection_witness :
    JournalHash.verify (JournalHash.generate testHash tamperBaseData) testHash
      tamperedDescData = false :=
  tamper_detection_requires_serialization_change testHash testHash_injective
    tamperBaseData tamperedDescData (by decide)

theorem pow10_pos (n : Nat) : 0 < pow10 n := pow_pos (by norm_num) n

/-- Correctness of the half-to-even rounding primitive: the result is
within half a divisor of the exact quotient, and a tie is resolved to an
even integer. -/
theorem roundDivHalfEven_spec (a b : ℤ) (hb : 0 < b) :
    2 * |roundDivHalfEven a b * b - a| ≤ b ∧
    (2 * |roundDivHalfEven a b * b - a| = b → Even (roundDivHalfEven a b)) := by
  have h1 : b * Int.fdiv a b + Int.fmod a b = a := Int.fdiv_add_fmod a b
  have h2 : 0 ≤ Int.fmod a b := by
    rw [Int.fmod_eq_emod a (le_of_lt hb)]
    exact Int.emod_nonneg a (ne_of_gt hb)
  have h3 : Int.fmod a b < b := Int.fmod_lt_of_pos a hb
  simp only [roundDivHalfEven]
  set f := Int.fdiv a b with hf
  set m := Int.fmod a b with hm
  have hfm : a - f * b = m := by linear_combination -h1
  have hneg : f * b - a = -m := by linear_combination h1
  have hnext : (f + 1) * b - a = b - m := by linear_combination h1
  rw [hfm]
  split
  case isTrue h4 =>
    rw [hneg, abs_neg, abs_of_nonneg h2]
    exact ⟨by omega, fun htie => by exfalso; omega⟩
  case isFalse h4 =>
    split
    case isTrue h5 =>
      rw [hnext, abs_of_nonneg (by omega)]
      exact ⟨by omega, fun htie => by exfalso; omega⟩
    case isFalse h5 =>
      have htie : 2 * m = b := by omega
      split
      case isTrue h6 =>
        rw [hneg, abs_neg, abs_of_nonneg h2]
        exact ⟨by omega, fun _ => Int.even_iff.mpr h6⟩
      case isFalse h6 =>
        rw [hnext, abs_of_nonneg (by omega)]
        refine ⟨by omega, fun _ => Int.even_iff.mpr ?_⟩
        omega

/-- The 4-digit rescale `roundToScale 4` is the integer nearest to the
exact scaled value (at most half a unit in the last place away), ties to
even; it is exact whenever the value already has at most 4 fractional
digits. -/
theorem roundToScale4_spec (d : Dec) :
    2 * |d.roundToScale 4 * pow10 d.scale - d.num * pow10 4| ≤ pow10 d.scale ∧
    (2 * |d.roundToScale 4 * pow10 d.scale - d.num * pow10 4| = pow10 d.scale →
      Even (d.roundToScale 4)) := by
  unfold Dec.roundToScale
  split
  case isTrue h =>
    have hp : pow10 (4 - d.scale) * pow10 d.scale = pow10 4 := by
      unfold pow10
      rw [← pow_add]
      congr 1
      omega
    have hz : d.num * pow10 (4 - d.scale) * pow10 d.scale - d.num * pow10 4 = 0 := by
      rw [mul_assoc, hp]
      ring
    rw [hz, abs_zero, mul_zero]
    exact ⟨le_of_lt (pow10_pos _), fun htie => absurd htie.symm (ne_of_gt (pow10_pos _))⟩
  case isFalse h =>
    have hb : 0 < pow10 (d.scale - 4) := pow10_pos _
    obtain ⟨hle, heven⟩ := roundDivHalfEven_spec d.num (pow10 (d.scale - 4)) hb
    set r := roundDivHalfEven d.num (pow10 (d.scale - 4)) with hr
    have hsplit : pow10 d.scale = pow10 (d.scale - 4) * pow10 4 := by
      unfold pow10
      rw [← pow_add]
      congr 1
      omega
    have key : r * pow10 d.scale - d.num * pow10 4 =
        (r * pow10 (d.scale - 4) - d.num) * pow10 4 := by
      rw [hsplit]
      ring
    rw [key, abs_mul, abs_of_nonneg (le_of_lt (pow10_pos 4))]
    constructor
    · have := mul_le_mul_of_nonneg_right hle (le_of_lt (pow10_pos 4))
      calc 2 * (|r * pow10 (d.scale - 4) - d.num| * pow10 4)
          = 2 * |r * pow10 (d.scale - 4) - d.num| * pow10 4 := by ring
        _ ≤ pow10 (d.scale - 4) * pow10 4 := this
        _ = pow10 d.scale := hsplit.symm
    · intro htie
      apply heven
      apply mul_right_cancel₀ (ne_of_gt (pow10_pos 4))
      calc 2 * |r * pow10 (d.scale - 4) - d.num| * pow10 4
          = 2 * (|r * pow10 (d.scale - 4) - d.num| * pow10 4) := by ring
        _ = pow10 d.scale := htie
        _ = pow10 (d.scale - 4) * pow10 4 := hsplit

/-- Counterexample to claim C7 as stated: `1.0001 × 0.5` stores the
banker's-rounded amount `0.5000`, but `equals` and `compareTo` against the
money `0.5000 EUR` observe the full-precision intermediate `0.50005`, not
the 4-digit rounded value: the two compare unequal. -/
theorem money_precision_counterexample :
    ((eur 10001 4).multiply ⟨5, 1⟩).amount = "0.5000" ∧
    ((eur 10001 4).multiply ⟨5, 1⟩).amount = (eur 5000 4).amount ∧
    ((eur 10001 4).multiply ⟨5, 1⟩).equals (eur 5000 4) = false ∧
    ((eur 10001 4).multiply ⟨5, 1⟩).compareTo (eur 5000 4) = some 1 := by
  refine ⟨by decide, by decide, by decide, rfl⟩

/-- Claim C7 (amended): every arithmetic operation stores an `amount`
string that is the exact result rescaled to 4 fractional digits by
banker's rounding — `roundToScale 4` is nearest-with-ties-to-even — but
the operation result keeps the full-precision decimal, and `equals` and
`compareTo` (and further operations) consume that full-precision value,
not the 4-digit rounded one. -/
theorem money_rounding_and_precision :
    (∀ a b : Money, a.currency = b.currency →
      ∃ m, a.add b = some m ∧ m.dec = a.dec.add b.dec ∧
        m.amount = (a.dec.add b.dec).toFixed 4) ∧
    (∀ a b : Money, a.currency = b.currency →
      ∃ m, a.subtract b = some m ∧ m.dec = a.dec.sub b.dec ∧
        m.amount = (a.dec.sub b.dec).toFixed 4) ∧
    (∀ (a : Money) (f : Dec), (a.multiply f).amount = (a.dec.mul f).toFixed 4) ∧
    (∀ (a : Money) (f : Dec), f.isZero = false →
      ∃ m, a.divide f = some m ∧ m.amount = (a.dec.div f).toFixed 4) ∧
    (∀ a : Money, a.negate.amount = a.dec.neg.toFixed 4 ∧ a.abs.amount = a.dec.abs.toFixed 4) ∧
    (∀ d : Dec, 2 * |d.roundToScale 4 * pow10 d.scale - d.num * pow10 4| ≤ pow10 d.scale ∧
      (2 * |d.roundToScale 4 * pow10 d.scale - d.num * pow10 4| = pow10 d.scale →
        Even (d.roundToScale 4))) ∧
    (∀ a b : Money, a.equals b = (a.currency == b.currency && a.dec.eqv b.dec)) ∧
    (∀ a b : Money, a.currency = b.currency → a.compareTo b = some (a.dec.cmp b.dec)) := by
  refine ⟨?_, ?_, fun a f => rfl, ?_, fun a => ⟨rfl, rfl⟩, roundToScale4_spec,
    fun a b => rfl, ?_⟩
  · intro a b h
    refine ⟨⟨a.dec.add b.dec, a.currency⟩, ?_, rfl, rfl⟩
    unfold Money.add
    rw [h, bne_self_eq_false]
    rfl
  · intro a b h
    refine ⟨⟨a.dec.sub b.dec, a.currency⟩, ?_, rfl, rfl⟩
    unfold Money.subtract
    rw [h, bne_self_eq_false]
    rfl
  · intro a f hf
    refine ⟨⟨a.dec.div f, a.currency⟩, ?_, rfl⟩
    unfold Money.divide
    rw [hf]
    rfl
  · intro a b h
    unfold Money.compareTo
    rw [h, bne_self_eq_false]
    rfl

/-- Witness for the amended C7: adding `1.00 EUR` and `0.50 EUR` stores
exactly the rescaled sum. -/
theorem money_rounding_witness :
    ∃ m, (eur 100 2).add (eur 50 2) = some m ∧ m.dec = Dec.add ⟨100, 2⟩ ⟨50, 2⟩ ∧
      m.amount = (Dec.add ⟨100, 2⟩ ⟨50, 2⟩).toFixed 4 :=
  money_rounding_and_precision.1 (eur 100 2) (eur 50 2) rfl

theorem stableInsert_map {α β : Type} (f : α → β) (ltA : α → α → Bool)
    (ltB : β → β → Bool) (hcomm : ∀ a b, ltB (f a) (f b) = ltA a b)
    (x : α) (l : List α) :
    stableInsert ltB (f x) (l.map f) = (stableInsert ltA x l).map f := by
  induction l with
  | nil => rfl
  | cons y ys ih =>
    simp only [List.map_cons, stableInsert, hcomm]
    cases hc : ltA y x <;> simp [hc, ih]

theorem stableSort_map {α β : Type} (f : α → β) (ltA : α → α → Bool)
    (ltB : β → β → Bool) (hcomm : ∀ a b, ltB (f a) (f b) = ltA a b)
    (l : List α) :
    stableSort ltB (l.map f) = (stableSort ltA l).map f := by
  induction l with
  | nil => rfl
  | cons x xs ih =>
    simp only [List.map_cons, stableSort, ih, stableInsert_map f ltA ltB hcomm]

theorem mem_stableInsert {α : Type} (lt : α → α → Bool) (x y : α) (l : List α) :
    y ∈ stableInsert lt x l ↔ y = x ∨ y ∈ l := by
  induction l with
  | nil => simp [stableInsert]
  | cons z zs ih =>
    simp only [stableInsert]
    cases hc : lt z x <;> simp [ih] <;> tauto

theorem mem_stableSort {α : Type} (lt : α → α → Bool) (y : α) (l : List α) :
    y ∈ stableSort lt l ↔ y ∈ l := by
  induction l with
  | nil => rfl
  | cons x xs ih =>
    simp [stableSort, mem_stableInsert, ih]

theorem scaledToString_ne_empty (k : Nat) (m : Int) : scaledToString k m ≠ "" := by
  intro h
  have hlen := congrArg String.length h
  simp only [scaledToString, String.length_append] at hlen
  have hdot : (".").length = 1 := rfl
  have hemp : ("").length = 0 := rfl
  rw [hdot, hemp] at hlen
  omega

theorem money_amount_ne_empty (m : Money) : m.amount ≠ "" :=
  scaledToString_ne_empty 4 _

theorem jsOrStr_empty_default (x : Option String) : jsOrStr x "" = x.getD "" := by
  match x with
  | none => rfl
  | some s =>
    show (if s = "" then "" else s) = (some s).getD ""
    split <;> simp_all

theorem jsOrStr_of_ne_empty (x : Option String) (d : String)
    (hx : x ≠ some "") : jsOrStr x d = x.getD d := by
  match x with
  | none => rfl
  | some s =>
    have hs : s ≠ "" := fun h => hx (by rw [h])
    show (if s = "" then d else s) = (some s).getD d
    rw [if_neg hs]
    rfl

/-- The per-line serialization record as the spec words it: the twelve
`|`-joined fields, amounts at 4 fractional digits, the exchange rate
rendered at exactly 6 fractional digits from its numeric value, absent
optional fields as the empty string, tax fields defaulting to the 4-digit
zero.  (On lines with exactly one non-zero side the original-amount
columns coincide with the source's `isDebit`/`isCredit` conditionals.) -/
def specLineRecord (l : JournalLine) : String :=
  String.intercalate "|"
    [l.accountId,
     toString l.lineNumber,
     l.description,
     l.debitAmount.amount,
     l.creditAmount.amount,
     l.originalAmount.currency,
     if l.isDebit then l.originalAmount.amount else "0.0000",
     if l.isCredit then l.originalAmount.amount else "0.0000",
     ((parseDec l.exchangeRate).getD ⟨0, 0⟩).toFixed 6,
     l.taxCode.getD "",
     (l.taxAmount.map Money.amount).getD "0.0000",
     l.taxRate.getD "0.0000"]

/-- The whole-journal serialization as the spec words it: the colon-joined
header fields in order, then the lines sorted by line number ascending and
joined with `;`. -/
def specSerialize (j : Journal) : String :=
  String.intercalate ":"
    [j.organizationId,
     j.periodId,
     j.journalNumber,
     j.description,
     j.reference.getD "",
     dateToISO j.postingDate,
     ((j.getTotalDebit).map Money.amount).getD "",
     ((j.getTotalCredit).map Money.amount).getD "",
     j.currency,
     j.hashPrev.getD "",
     String.intercalate ";"
       ((stableSort (fun a b => a.lineNumber < b.lineNumber) j.lines).map specLineRecord)]

/-- What the source actually serializes for a journal entity. -/
def journalSerialize (j : Journal) : String := JournalHash.serialize j.toHashData

/-- Journal accepted by `Journal.create` whose first line stores the
exchange rate as the plain string `1.5`. -/
def fxProps : CreateJournalProps :=
  { id := "j-8", organizationId := orgA, periodId := "p-2024q2",
    journalNumber := "JRN-2024-008", description := "Rate-scale booking",
    postingDate := mkDate 2024 5 17, currency := "EUR",
    lines :=
      [⟨"j-8", "1200-bank", 1, "Rate debit", eur 15000 2, eur 0 0, eur 10000 2,
        "1.5", none, none, none⟩,
       ⟨"j-8", "4000-revenue", 2, "Rate credit", eur 0 0, eur 15000 2, eur 15000 2,
        "1.000000", none, none, none⟩],
    createdBy := "user-1" }

def fxJ : Journal := resGetD (Journal.create fxProps (mkDate 2024 5 17)) dummyJournal

/-- Counterexample to claim C6 as stated: an accepted journal whose stored
exchange-rate string is `1.5` serializes that string verbatim, not the
spec's 6-fractional-digit rendering `1.500000`, so the serialized bytes
differ from the spec's format. -/
theorem serialize_rate_counterexample :
    (Journal.create fxProps (mkDate 2024 5 17)).isOk = true ∧
    (parseDec "1.5").map (fun d => d.toFixed 6) = some "1.500000" ∧
    journalSerialize fxJ ≠ specSerialize fxJ := by
  refine ⟨rfl, by decide, by decide⟩

/-- Claim C6 (amended): `serialize` produces exactly the spec's byte format
— header field order, ISO-8601 date, 4-digit amount strings, sorted
`;`-joined lines of twelve `|`-joined fields, empty strings and 4-digit
zero defaults for absent optionals — except that the exchange rate is
emitted verbatim as the stored string; the two coincide exactly when every
line's stored rate is already the canonical 6-fractional-digit rendering
of its value (and no line carries an empty-string tax rate, which the
JS-falsiness default would replace by the 4-digit zero). -/
theorem serialize_matches_spec_format (j : Journal)
    (hrates : ∀ l ∈ j.lines,
      (parseDec l.exchangeRate).map (fun d => d.toFixed 6) = some l.exchangeRate)
    (htaxr : ∀ l ∈ j.lines, l.taxRate ≠ some "") :
    journalSerialize j = specSerialize j := by
  unfold journalSerialize specSerialize JournalHash.serialize Journal.toHashData
  have hlines :
      stableSort (fun a b => a.lineNumber < b.lineNumber)
        (j.lines.map JournalLine.toHashData) =
      (stableSort (fun a b => a.lineNumber < b.lineNumber) j.lines).map
        JournalLine.toHashData :=
    stableSort_map _ _ _ (fun _ _ => rfl) _
  simp only [hlines, List.map_map]
  have hrecords : ∀ l ∈ stableSort (fun a b => a.lineNumber < b.lineNumber) j.lines,
      (fun l => String.intercalate "|"
        [l.accountId, toString l.lineNumber, l.description, l.debitAmount,
         l.creditAmount, l.originalCurrency, l.originalDebitAmount,
         l.originalCreditAmount, l.exchangeRate, jsOrStr l.taxCode "",
         jsOrStr l.taxAmount "0", jsOrStr l.taxRate "0"])
        (JournalLine.toHashData l) = specLineRecord l := by
    intro l hl
    rw [mem_stableSort] at hl
    have hrate := hrates l hl
    have htax := htaxr l hl
    unfold JournalLine.toHashData specLineRecord
    have hx : l.exchangeRate = ((parseDec l.exchangeRate).getD ⟨0, 0⟩).toFixed 6 := by
      cases hp : parseDec l.exchangeRate with
      | none => rw [hp] at hrate; simp at hrate
      | some d => rw [hp] at hrate; simp at hrate; simpa using hrate.symm
    have htc : jsOrStr l.taxCode "" = l.taxCode.getD "" := jsOrStr_empty_default _
    have hta : jsOrStr (some (jsOrStr (l.taxAmount.map Money.amount) "0.0000")) "0"
        = (l.taxAmount.map Money.amount).getD "0.0000" := by
      have hinner : jsOrStr (l.taxAmount.map Money.amount) "0.0000"
          = (l.taxAmount.map Money.amount).getD "0.0000" := by
        apply jsOrStr_of_ne_empty
        cases l.taxAmount with
        | none => simp
        | some m => simpa using money_amount_ne_empty m
      rw [hinner]
      apply jsOrStr_of_ne_empty
      cases l.taxAmount with
      | none => simp
      | some m => simpa using money_amount_ne_empty m
    have htr : jsOrStr (some (jsOrStr l.taxRate "0.0000")) "0"
        = l.taxRate.getD "0.0000" := by
      have hinner : jsOrStr l.taxRate "0.0000" = l.taxRate.getD "0.0000" :=
        jsOrStr_of_ne_empty _ _ htax
      rw [hinner]
      apply jsOrStr_of_ne_empty
      cases h : l.taxRate with
      | none => simp
      | some s =>
        rw [h] at htax
        simpa using fun hs => htax (by rw [hs])
    simp only [htc, hta, htr]
    rw [← hx]
  simp only [Function.comp_def]
  rw [List.map_congr_left hrecords]
  simp only [jsOrStr_empty_default]

/-- Witness for the amended C6: the S1 journal stores all rates as
`1.000000`, and its source serialization equals the spec's byte format. -/
theorem serialize_matches_spec_format_witness :
    journalSerialize draftJ = specSerialize draftJ :=
  serialize_matches_spec_format draftJ (by decide) (by decide)

/-- The mirror line set a reversal builds: debit and credit swapped, the
description prefixed, everything else untouched. -/
def mirrorLines (ls : List JournalLine) : List JournalLine :=
  ls.map (fun l =>
    l.update { debitAmount := some l.creditAmount,
               creditAmount := some l.debitAmount,
               description := some ("REVERSAL: " ++ l.description) })

/-- Anatomy of a successful `reverseJournal`: the saved original is the
loaded journal with only `status`, `reversal_journal_id` and `updated_at`
changed, and the saved reversal is the posted mirror journal — original
period id, `-REV` journal number, the reversal date as posting date,
swapped lines — with both rows written by one `saveMultiple`. -/
theorem reverseJournal_ok_shape (db : DB) (origId org desc : String)
    (rDate : Int) (byU genId : String) (H : String → String) (now : Int)
    (orig rev : Journal) (db2 : DB) (O : Journal)
    (hfind : JournalRepository.findById db origId org = some O)
    (h : PostingService.reverseJournal db origId org desc rDate byU genId H now =
      (.ok (orig, rev), db2)) :
    orig = { O with status := "reversed", reversalJournalId := some genId,
                    updatedAt := now } ∧
    (∃ prevHash hs,
      rev = ⟨genId, O.organizationId, O.periodId, O.journalNumber ++ "-REV", desc,
        some ("REV-" ++ jsOrStr O.reference O.journalNumber), rDate, "posted",
        O.currency, mirrorLines O.lines, prevHash, some hs, none, some O.id, none,
        byU, some byU, some now, now, now⟩) ∧
    db2 = JournalRepository.saveMultiple db [orig, rev] := by
  unfold PostingService.reverseJournal at h
  split at h
  case h_1 hnone => rw [hfind] at hnone; simp at hnone
  case h_2 original hsome =>
    rw [hfind] at hsome
    injection hsome with hOeq
    subst hOeq
    split at h
    case isTrue => simp at h
    case isFalse hstat =>
      split at h
      case isTrue => simp at h
      case isFalse hrid =>
        split at h
        case h_1 => simp at h
        case h_2 period hperiod =>
          split at h
          case isTrue => simp at h
          case isFalse hopen =>
            split at h
            case h_1 => simp at h
            case h_2 => simp at h
            case h_3 rj hcr =>
              simp only [Journal.createReversal] at hcr
              rw [if_neg hstat] at hcr
              simp only [Journal.create] at hcr
              split at hcr
              · simp at hcr
              · split at hcr
                · simp at hcr
                · split at hcr
                  · simp at hcr
                  · split at hcr
                    · simp at hcr
                    · split at hcr
                      case h_1 => simp at hcr
                      case h_2 => simp at hcr
                      case h_3 =>
                        simp only [Res.ok.injEq] at hcr
                        subst hcr
                        split at h
                        case h_1 => simp at h
                        case h_2 => simp at h
                        case h_3 prevHash hprev =>
                          split at h
                          case h_1 => simp at h
                          case h_2 => simp at h
                          case h_3 postedRev hpost =>
                            simp only [Journal.post] at hpost
                            rw [if_neg (by decide)] at hpost
                            split at hpost
                            case h_1 => simp at hpost
                            case h_2 => simp at hpost
                            case h_3 =>
                              simp only [Res.ok.injEq] at hpost
                              subst hpost
                              simp only [Prod.mk.injEq, Res.ok.injEq] at h
                              obtain ⟨⟨horig, hrev⟩, h2⟩ := h
                              refine ⟨horig.symm, ⟨prevHash, _, hrev.symm⟩, ?_⟩
                              rw [← h2, horig, hrev]

/-- The relational properties claim C4 asserts of an accepted reversal pair
(`O` the loaded original, `orig` the saved original, `rev` the saved
reversal). -/
def ReversalMirror (O orig rev : Journal) (genId : String) : Prop :=
  rev.lines.length = O.lines.length ∧
  (∀ (i : Nat) (hi : i < O.lines.length) (hi2 : i < rev.lines.length),
    (rev.lines.get ⟨i, hi2⟩).debitAmount = (O.lines.get ⟨i, hi⟩).creditAmount ∧
    (rev.lines.get ⟨i, hi2⟩).creditAmount = (O.lines.get ⟨i, hi⟩).debitAmount ∧
    (rev.lines.get ⟨i, hi2⟩).lineNumber = (O.lines.get ⟨i, hi⟩).lineNumber ∧
    (rev.lines.get ⟨i, hi2⟩).originalAmount = (O.lines.get ⟨i, hi⟩).originalAmount ∧
    (rev.lines.get ⟨i, hi2⟩).exchangeRate = (O.lines.get ⟨i, hi⟩).exchangeRate ∧
    (rev.lines.get ⟨i, hi2⟩).taxCode = (O.lines.get ⟨i, hi⟩).taxCode ∧
    (rev.lines.get ⟨i, hi2⟩).taxAmount = (O.lines.get ⟨i, hi⟩).taxAmount ∧
    (rev.lines.get ⟨i, hi2⟩).taxRate = (O.lines.get ⟨i, hi⟩).taxRate ∧
    (rev.lines.get ⟨i, hi2⟩).description =
      "REVERSAL: " ++ (O.lines.get ⟨i, hi⟩).description) ∧
  rev.getTotalDebit = O.getTotalCredit ∧
  rev.getTotalCredit = O.getTotalDebit ∧
  rev.currency = O.currency ∧
  rev.journalNumber = O.journalNumber ++ "-REV" ∧
  orig.status = "reversed" ∧
  orig.reversalJournalId = some rev.id ∧
  rev.id = genId ∧
  rev.originalJournalId = some O.id ∧
  orig.hashSelf = O.hashSelf ∧
  orig.hashPrev = O.hashPrev

/-- Claim C4: every accepted reversal mirrors the original line by line
(debit and credit swapped; line numbers, original amounts, exchange rates
and tax fields unchanged; descriptions prefixed with `REVERSAL: `), totals
swap, currency and `-REV` numbering hold, the original ends up `reversed`
and linked both ways, and its sealed `hash_self` and `hash_prev` are left
untouched. -/
theorem reversal_mirror (db : DB) (origId org desc : String) (rDate : Int)
    (byU genId : String) (H : String → String) (now : Int)
    (orig rev : Journal) (db2 : DB) (O : Journal)
    (hfind : JournalRepository.findById db origId org = some O)
    (h : PostingService.reverseJournal db origId org desc rDate byU genId H now =
      (.ok (orig, rev), db2)) :
    ReversalMirror O orig rev genId := by
  obtain ⟨horig, ⟨prevHash, hs, hrev⟩, _⟩ :=
    reverseJournal_ok_shape db origId org desc rDate byU genId H now orig rev db2 O hfind h
  subst horig
  subst hrev
  unfold ReversalMirror mirrorLines
  refine ⟨List.length_map _ _, ?_, ?_, ?_, rfl, rfl, rfl, rfl, rfl, rfl, rfl, rfl⟩
  · intro i hi hi2
    have hget : ∀ (f : JournalLine → JournalLine) (hh : i < (O.lines.map f).length),
        (O.lines.map f).get ⟨i, hh⟩ = f (O.lines.get ⟨i, hi⟩) := by
      intro f hh
      simp
    rw [hget]
    simp [JournalLine.update]
  · show Journal.getTotalDebit _ = Journal.getTotalCredit O
    unfold Journal.getTotalDebit Journal.getTotalCredit
    rw [List.foldl_map]
    rfl
  · show Journal.getTotalCredit _ = Journal.getTotalDebit O
    unfold Journal.getTotalCredit Journal.getTotalDebit
    rw [List.foldl_map]
    rfl

/-- Witness for C4: the concrete S6-style reversal of the S1 journal. -/
theorem reversal_mirror_witness : ReversalMirror postedJ revPair.1 revPair.2 "j-2" :=
  reversal_mirror db1 "j-1" orgA "Error correction" (mkDate 2024 5 20) "user-2" "j-2"
    testHash (mkDate 2024 5 20) revPair.1 revPair.2 revDb postedJ rfl rfl

/-- Claim C10: the accepted reversal always carries the ORIGINAL journal's
`period_id` and the reversal date as its posting date; the period resolved
from the reversal date feeds only the openness check. -/
theorem reversal_keeps_original_period (db : DB) (origId org desc : String)
    (rDate : Int) (byU genId : String) (H : String → String) (now : Int)
    (orig rev : Journal) (db2 : DB) (O : Journal)
    (hfind : JournalRepository.findById db origId org = some O)
    (h : PostingService.reverseJournal db origId org desc rDate byU genId H now =
      (.ok (orig, rev), db2)) :
    rev.periodId = O.periodId ∧ rev.postingDate = rDate ∧ orig.periodId = O.periodId := by
  obtain ⟨horig, ⟨prevHash, hs, hrev⟩, _⟩ :=
    reverseJournal_ok_shape db origId org desc rDate byU genId H now orig rev db2 O hfind h
  subst horig
  subst hrev
  exact ⟨rfl, rfl, rfl⟩

/-- Store with two open periods, so a reversal date can fall in a period
different from the original journal's. -/
def db1b : DB := ⟨[postedJ], [periodQ2, periodQ3]⟩

def crossCall : Res (Journal × Journal) × DB :=
  PostingService.reverseJournal db1b "j-1" orgA "Cross period reversal" (mkDate 2024 8 15)
    "user-2" "j-5" testHash (mkDate 2024 8 15)

def crossPair : Journal × Journal := resGetD crossCall.1 (dummyJournal, dummyJournal)

/-- Witness for C10: a reversal dated inside open period 2024-Q3 resolves
that period for the openness check, yet the saved reversal still carries
the original period 2024-Q2 while its posting date is the reversal date. -/
theorem reversal_keeps_original_period_witness :
    PeriodRepository.findByDate db1b (mkDate 2024 8 15) orgA = some periodQ3 ∧
    periodQ3.id ≠ periodQ2.id ∧
    crossPair.2.periodId = periodQ2.id ∧
    crossPair.2.postingDate = mkDate 2024 8 15 := by
  refine ⟨rfl, by decide, ?_, ?_⟩
  · exact (reversal_keeps_original_period db1b "j-1" orgA "Cross period reversal"
      (mkDate 2024 8 15) "user-2" "j-5" testHash (mkDate 2024 8 15)
      crossPair.1 crossPair.2 crossCall.2 postedJ rfl rfl).1
  · exact (reversal_keeps_original_period db1b "j-1" orgA "Cross period reversal"
      (mkDate 2024 8 15) "user-2" "j-5" testHash (mkDate 2024 8 15)
      crossPair.1 crossPair.2 crossCall.2 postedJ rfl rfl).2.1
